import Mathlib

/-!
# nav2_smac_planner/types.hpp

A shallow embedding of the value types of `nav2_smac_planner/types.hpp`
(`SmootherParams`, `MotionPose`, `LatticeMetadata`, `MotionPrimitive`) and of
`SmootherParams::get`, together with the properties proved about them.

Conventions of the embedding:

* `float` and `double` values are exact rationals (`ℚ`).  `SmootherParams::get` only
  copies such values; `MotionPose::operator-` subtracts them, and the arithmetic is taken
  exactly.
* `int` is a 32-bit signed integer; the parameter store holds 64-bit integers, and reading
  one into an `int` is a `static_cast<int>` (see `static_cast_int`).
* `SmootherParams::get` mutates `*this` and the node in place and may be left by an
  exception.  It is embedded as a total function returning the state reached (`GetOutcome`):
  the parameters, the store, and the exception thrown, if any.
* The node that `get` reads from is not under `src/`.  It is the key/value store of spec §6
  and §9: a key is undeclared or declared with one typed value, and declaring a key always
  succeeds.  Reading a declared value into a destination of another type throws.
* The primitive library (`load`, `primitives_from`) is not under `src/` either; `types.hpp`
  declares its types only.  It is modelled from spec §3, §4.1, §7 and §9.
-/

namespace nav2_smac_planner

/-! ## The parameter store -/

/-- Modelled from the spec: a value of the generic key/value configuration store (spec §6,
`rclcpp::ParameterValue` in the source, whose declaration is not under `src/`).  The four
alternatives are the value types that `rclcpp::ParameterValue(...)` is built from in
`types.hpp` (`double`, `int`, `bool`) plus strings. -/
inductive ParameterValue where
  | bool (b : Bool)
  | integer (i : Int)
  | double (d : ℚ)
  | string (s : String)
deriving DecidableEq

/-- Modelled from the spec: the configuration store behind the node handle
(`std::shared_ptr<rclcpp_lifecycle::LifecycleNode>`, not under `src/`): "a mapping from
option name to value" (spec §9).  `none` means that the key is not declared. -/
abbrev ParameterStore := String → Option ParameterValue

/-- Modelled from the spec: the failure of a read of the typed store (the node is not under
`src/`): the exception that leaves `node->get_parameter(name, out)` when the declared value
of `name` does not have the type of `out`. -/
inductive ParameterException where
  | InvalidParameterType (name : String)
deriving DecidableEq

/-- Modelled from the spec: `node->has_parameter(name)` (the node is not under `src/`):
whether the key is declared. -/
def has_parameter (node : ParameterStore) (name : String) : Bool :=
  (node name).isSome

/-- Modelled from the spec: `node->declare_parameter(name, value)` (the node is not under
`src/`): the store with `name` bound to `value`, every other key as before.  Declaring
always succeeds; values injected from outside at declaration are not part of the store of
the spec. -/
def declare_parameter (node : ParameterStore) (name : String) (value : ParameterValue) :
    ParameterStore :=
  fun key => if key = name then some value else node key

/-- Modelled from the spec: `nav2_util::declare_parameter_if_not_declared` (declared in
`nav2_util/node_utils.hpp`, not under `src/`): the default is declared when, and only when,
the key is absent (spec §6: "apply these defaults when a key is absent"). -/
def declare_parameter_if_not_declared (node : ParameterStore) (param_name : String)
    (default_value : ParameterValue) : ParameterStore :=
  if !has_parameter node param_name then
    declare_parameter node param_name default_value
  else
    node

/-- Modelled from the spec: the conversion `static_cast<int>` of a 64-bit store integer to
the 32-bit `int` of `max_its_`, which `get_parameter` applies (the node is not under
`src/`): reduction modulo `2^32` into `[-2^31, 2^31)`. -/
def static_cast_int (i : Int) : Int :=
  (i + 2 ^ 31) % 2 ^ 32 - 2 ^ 31

/-- Modelled from the spec: the call `get_value<double>()` of a store value (the node is not
under `src/`): the double held; `none`, a type exception, when the value is not a
double. -/
def ParameterValue.get_double : ParameterValue → Option ℚ
  | .double d => some d
  | _ => none

/-- Modelled from the spec: the call `get_value<int>()` of a store value (the node is not
under `src/`): the integer held, converted to the `int` destination; `none`, a type
exception, when the value is not an integer. -/
def ParameterValue.get_int : ParameterValue → Option Int
  | .integer i => some (static_cast_int i)
  | _ => none

/-- Modelled from the spec: the call `get_value<bool>()` of a store value (the node is not
under `src/`): the boolean held; `none`, a type exception, when the value is not a
boolean. -/
def ParameterValue.get_bool : ParameterValue → Option Bool
  | .bool b => some b
  | _ => none

/-- Modelled from the spec: the template `node->get_parameter(name, out)` (the node is not
under `src/`), with the destination type given by `get_value`.  The result is the new
content of `out`: the declared value; `current` (the destination is left untouched) when the
key is not declared; an exception when the declared value does not have the type of the
destination.  The store is not changed. -/
def get_parameter {T : Type} (get_value : ParameterValue → Option T) (node : ParameterStore)
    (name : String) (current : T) : Except ParameterException T :=
  match node name with
  | none => .ok current
  | some value =>
    match get_value value with
    | some v => .ok v
    | none => .error (.InvalidParameterType name)

/-! ## SmootherParams -/

/-- The struct `nav2_smac_planner::SmootherParams`. -/
structure SmootherParams where
  tolerance_ : ℚ
  max_its_ : Int
  w_data_ : ℚ
  w_smooth_ : ℚ
  holonomic_ : Bool
  do_refinement_ : Bool
deriving DecidableEq

/-- The default constructor `SmootherParams()` (the name `SmootherParams.SmootherParams`
would hide the type inside its own namespace): it initialises `holonomic_` to `false` and
nothing else; the argument stands for the indeterminate content of the other members. -/
def SmootherParams.default_constructor (indeterminate : SmootherParams) : SmootherParams :=
  { indeterminate with holonomic_ := false }

/-- The state in which a call of `SmootherParams::get` leaves the object and the node:
`thrown` is the exception that ended the call, `none` when the call ran to its end. -/
structure GetOutcome where
  params : SmootherParams
  node : ParameterStore
  thrown : Option ParameterException

/-- The method `SmootherParams::get(node, name)`: five times
`declare_parameter_if_not_declared` followed by `get_parameter`, in the order of the
source.  An exception of `get_parameter` ends the call at that statement. -/
def SmootherParams.get (self : SmootherParams) (node : ParameterStore) (name : String) :
    GetOutcome :=
  let local_name := name ++ ".smoother."
  let node := declare_parameter_if_not_declared node (local_name ++ "tolerance")
    (.double 1e-10)
  match get_parameter ParameterValue.get_double node (local_name ++ "tolerance")
      self.tolerance_ with
  | .error e => ⟨self, node, some e⟩
  | .ok tolerance =>
  let self := { self with tolerance_ := tolerance }
  let node := declare_parameter_if_not_declared node (local_name ++ "max_iterations")
    (.integer 1000)
  match get_parameter ParameterValue.get_int node (local_name ++ "max_iterations")
      self.max_its_ with
  | .error e => ⟨self, node, some e⟩
  | .ok max_its =>
  let self := { self with max_its_ := max_its }
  let node := declare_parameter_if_not_declared node (local_name ++ "w_data")
    (.double 0.2)
  match get_parameter ParameterValue.get_double node (local_name ++ "w_data")
      self.w_data_ with
  | .error e => ⟨self, node, some e⟩
  | .ok w_data =>
  let self := { self with w_data_ := w_data }
  let node := declare_parameter_if_not_declared node (local_name ++ "w_smooth")
    (.double 0.3)
  match get_parameter ParameterValue.get_double node (local_name ++ "w_smooth")
      self.w_smooth_ with
  | .error e => ⟨self, node, some e⟩
  | .ok w_smooth =>
  let self := { self with w_smooth_ := w_smooth }
  let node := declare_parameter_if_not_declared node (local_name ++ "do_refinement")
    (.bool true)
  match get_parameter ParameterValue.get_bool node (local_name ++ "do_refinement")
      self.do_refinement_ with
  | .error e => ⟨self, node, some e⟩
  | .ok do_refinement =>
  let self := { self with do_refinement_ := do_refinement }
  ⟨self, node, none⟩

/-- Specification predicate: `key` is not declared in `node`, or it is declared with a value
that `get_value` accepts (a value of the destination type). -/
def readable {T : Type} (get_value : ParameterValue → Option T) (node : ParameterStore)
    (key : String) : Prop :=
  ∀ value, node key = some value → (get_value value).isSome = true

/-! ## MotionPose -/

/-- The struct `nav2_smac_planner::MotionPose`; the structure constructor is the constructor
`MotionPose(x, y, theta)`. -/
structure MotionPose where
  _x : ℚ
  _y : ℚ
  _theta : ℚ
deriving DecidableEq

/-- The operator `MotionPose::operator-`. -/
def MotionPose.operator_sub (self p2 : MotionPose) : MotionPose :=
  MotionPose.mk (self._x - p2._x) (self._y - p2._y) (self._theta - p2._theta)

instance : Sub MotionPose := ⟨MotionPose.operator_sub⟩

/-- The type `MotionPoses`, a `std::vector<MotionPose>`. -/
abbrev MotionPoses := List MotionPose

/-! ## LatticeMetadata and MotionPrimitive -/

/-- The struct `nav2_smac_planner::LatticeMetadata`.  The `unsigned int` members only count;
they are natural numbers. -/
structure LatticeMetadata where
  min_turning_radius : ℚ
  grid_resolution : ℚ
  number_of_headings : Nat
  heading_angles : List ℚ
  number_of_trajectories : Nat
  motion_model : String
deriving DecidableEq

/-- The struct `nav2_smac_planner::MotionPrimitive`: a plain record, its members are
independent of one another. -/
structure MotionPrimitive where
  trajectory_id : Nat
  start_angle : ℚ
  end_angle : ℚ
  turning_radius : ℚ
  trajectory_length : ℚ
  arc_length : ℚ
  straight_length : ℚ
  left_turn : Bool
  poses : MotionPoses
deriving DecidableEq

/-- The type `MotionPrimitives`, a `std::vector<MotionPrimitive>`. -/
abbrev MotionPrimitives := List MotionPrimitive

/-- The type `MotionPrimitivePtrs`, a `std::vector<MotionPrimitive *>`: a pointer is the
index of the primitive in the `MotionPrimitives` that owns it (spec §9: "indices/handles
into that arena"). -/
abbrev MotionPrimitivePtrs := List Nat

/-! ## The primitive library

`types.hpp` declares the types only.  The library built from them (`load`,
`primitives_from`) is not under `src/`; it is modelled from spec §3, §4.1 and §7. -/

/-- Modelled from the spec: the invariants of §3 whose violation `load` reports (the lattice
loader is not under `src/`). -/
inductive Invariant where
  | heading_count
  | heading_order
  | grid_resolution
  | min_turning_radius
  | trajectory_count
  | heading_membership
  | length_consistency
  | poses
  | id_uniqueness
deriving DecidableEq

/-- Modelled from the spec: the failures of loading in the taxonomy of §7 (the lattice
loader is not under `src/`): `Inconsistent` names the first violated invariant,
`InfeasiblePrimitive` the primitive whose turning radius is below the minimum. -/
inductive LatticeError where
  | Inconsistent (violated : Invariant)
  | InfeasiblePrimitive (trajectory_id : Nat)
deriving DecidableEq

/-- Modelled from the spec: the tolerance that §4.1 and §9 leave to the implementer (the
lattice loader is not under `src/`): `angular`, within which a heading angle matches a
bucket ("implementers should make it configurable"). -/
structure LoadTolerance where
  angular : ℚ

/-- Modelled from the spec: the `ε` of `|trajectory_length - (arc_length + straight_length)|
< ε` (§8; the lattice loader is not under `src/`), fixed by "length consistency within a
relative tolerance, e.g. 1e-3" (§4.1): `1e-3` times the larger of the two lengths that are
compared, in absolute value.  It is `0` for a primitive whose two lengths are both `0`. -/
def length_tolerance (primitive : MotionPrimitive) : ℚ :=
  1e-3 * max |primitive.trajectory_length|
    |primitive.arc_length + primitive.straight_length|

/-- Modelled from the spec: the scan behind "resolved to the nearest metadata bucket
index" (§4.1; the lattice loader is not under `src/`): `best` is the index of the nearest
angle met so far, at distance `distance`; `index` is the index of the head of the list. -/
def nearest_heading_from (angle : ℚ) : List ℚ → Nat → Nat → ℚ → Nat
  | [], _, best, _ => best
  | a :: rest, index, best, distance =>
    if |a - angle| < distance then
      nearest_heading_from angle rest (index + 1) index |a - angle|
    else
      nearest_heading_from angle rest (index + 1) best distance

/-- Modelled from the spec: the index of the heading angle nearest to `angle` (§4.1; the
lattice loader is not under `src/`), the first one among equally near ones; `none` when
there is no heading angle. -/
def nearest_heading (heading_angles : List ℚ) (angle : ℚ) : Option Nat :=
  match heading_angles with
  | [] => none
  | a :: rest => some (nearest_heading_from angle rest 1 0 |a - angle|)

/-- Modelled from the spec: the heading bucket of an angle (§4.1; the lattice loader is not
under `src/`): "heading angles are resolved to the nearest metadata bucket index at load
time, with a fail-fast error if no bucket matches within a small angular tolerance";
`none` is that failure. -/
def resolve_heading (angular_tolerance : ℚ) (heading_angles : List ℚ) (angle : ℚ) :
    Option Nat :=
  match nearest_heading heading_angles angle with
  | none => none
  | some index =>
    match heading_angles[index]? with
    | none => none
    | some a => if |a - angle| ≤ angular_tolerance then some index else none

/-- Modelled from the spec: the invariants of `LatticeMetadata` in §3 (the lattice loader is
not under `src/`): as many heading angles as headings, the angles distinct and sorted,
`grid_resolution > 0`, `min_turning_radius >= 0`, and `number_of_trajectories` equal to the
count of the primitives loaded.  The spec does not say which motion models allow a radius
of `0`; it is accepted for all. -/
def validate_metadata (metadata : LatticeMetadata) (primitives : MotionPrimitives) :
    Except LatticeError Unit :=
  if metadata.heading_angles.length ≠ metadata.number_of_headings then
    .error (.Inconsistent .heading_count)
  else if ¬ metadata.heading_angles.Chain' (· < ·) then
    .error (.Inconsistent .heading_order)
  else if ¬ 0 < metadata.grid_resolution then
    .error (.Inconsistent .grid_resolution)
  else if ¬ 0 ≤ metadata.min_turning_radius then
    .error (.Inconsistent .min_turning_radius)
  else if metadata.number_of_trajectories ≠ primitives.length then
    .error (.Inconsistent .trajectory_count)
  else
    .ok ()

/-- Modelled from the spec: the invariants of one `MotionPrimitive` in §3 and the edge case
of §4.2 (the lattice loader is not under `src/`): start and end angle resolve to a heading
bucket, the lengths are consistent within the relative tolerance `1e-3`
(`length_tolerance`), the poses are not empty, start at
the local origin with heading `start_angle` and end at heading `end_angle`, and the turning
radius is not below the minimum, which is the `min_turning_radius` of the metadata, the
only minimum that `load(metadata, primitives)` is given. -/
def validate_primitive (tolerance : LoadTolerance) (metadata : LatticeMetadata)
    (primitive : MotionPrimitive) : Except LatticeError Unit :=
  if (resolve_heading tolerance.angular metadata.heading_angles
      primitive.start_angle).isNone then
    .error (.Inconsistent .heading_membership)
  else if (resolve_heading tolerance.angular metadata.heading_angles
      primitive.end_angle).isNone then
    .error (.Inconsistent .heading_membership)
  else if ¬ |primitive.trajectory_length
      - (primitive.arc_length + primitive.straight_length)|
      < length_tolerance primitive then
    .error (.Inconsistent .length_consistency)
  else if ¬ (primitive.poses.head? = some (MotionPose.mk 0 0 primitive.start_angle)
      ∧ primitive.poses.getLast?.map (fun pose => pose._theta)
        = some primitive.end_angle) then
    .error (.Inconsistent .poses)
  else if primitive.turning_radius < metadata.min_turning_radius then
    .error (.InfeasiblePrimitive primitive.trajectory_id)
  else
    .ok ()

/-- Modelled from the spec: `validate_primitive` over the flat collection, in its order,
stopping at the first failure (the lattice loader is not under `src/`). -/
def validate_primitives (tolerance : LoadTolerance) (metadata : LatticeMetadata) :
    MotionPrimitives → Except LatticeError Unit
  | [] => .ok ()
  | primitive :: rest =>
    match validate_primitive tolerance metadata primitive with
    | .error e => .error e
    | .ok () => validate_primitives tolerance metadata rest

/-- Modelled from the spec: one more handle in the bucket of `heading_index` (the lattice
loader is not under `src/`). -/
def insert_handle (buckets : List MotionPrimitivePtrs) (heading_index handle : Nat) :
    List MotionPrimitivePtrs :=
  buckets.modify (fun bucket => bucket ++ [handle]) heading_index

/-- Modelled from the spec: "groups primitives by `start_angle` into buckets keyed by
heading index" (§4.1; the lattice loader is not under `src/`): the primitives are taken in
their order, `handle` is the index of the head of the list in the arena, and the start
angle of each is resolved to its bucket, failing fast when none matches. -/
def group_by_start_angle (angular_tolerance : ℚ) (heading_angles : List ℚ) :
    MotionPrimitives → Nat → List MotionPrimitivePtrs →
      Except LatticeError (List MotionPrimitivePtrs)
  | [], _, buckets => .ok buckets
  | primitive :: rest, handle, buckets =>
    match resolve_heading angular_tolerance heading_angles primitive.start_angle with
    | none => .error (.Inconsistent .heading_membership)
    | some heading_index =>
      group_by_start_angle angular_tolerance heading_angles rest (handle + 1)
        (insert_handle buckets heading_index handle)

/-- Modelled from the spec: the Primitive Library of §3 (it is not under `src/`): the
metadata, the arena of the primitives loaded, and one bucket of handles per heading index;
`tolerance` is the one it was loaded with. -/
structure PrimitiveLibrary where
  tolerance : LoadTolerance
  metadata : LatticeMetadata
  primitives : MotionPrimitives
  buckets : List MotionPrimitivePtrs

/-- Modelled from the spec: `load(metadata, primitives)` of §4.1 (the lattice loader is not
under `src/`): the invariants of §3 are validated, the metadata first, then the primitives
in their order, then the uniqueness of `trajectory_id`; on success the primitives are
grouped by start heading.  No library is returned on a failure. -/
def load (tolerance : LoadTolerance) (metadata : LatticeMetadata)
    (primitives : MotionPrimitives) : Except LatticeError PrimitiveLibrary :=
  match validate_metadata metadata primitives with
  | .error e => .error e
  | .ok () =>
  match validate_primitives tolerance metadata primitives with
  | .error e => .error e
  | .ok () =>
  if ¬ (primitives.map (fun primitive => primitive.trajectory_id)).Nodup then
    .error (.Inconsistent .id_uniqueness)
  else
  match group_by_start_angle tolerance.angular metadata.heading_angles primitives 0
      (List.replicate metadata.number_of_headings []) with
  | .error e => .error e
  | .ok buckets => .ok ⟨tolerance, metadata, primitives, buckets⟩

/-- Modelled from the spec: `primitives_from(heading_index)` of §4.1 (it is not under
`src/`): the primitives of the bucket, in their order; the empty sequence for a heading
without primitives.  A `MotionPrimitive` has no member for the direction of travel, so the
library holds no reversing primitive that the query would have to withhold. -/
def primitives_from (library : PrimitiveLibrary) (heading_index : Nat) : MotionPrimitives :=
  (library.buckets.getD heading_index []).filterMap (fun handle => library.primitives[handle]?)

/-! ## The scenario of spec §8 -/

/-- Modelled from the spec: the metadata of the scenario of §8: four headings
`[0, 1.5708, 3.1416, 4.7124]`; the members that the scenario leaves open are filled in. -/
def scenario_metadata : LatticeMetadata :=
  LatticeMetadata.mk 0.5 0.05 4 [0, 1.5708, 3.1416, 4.7124] 1 "ackermann"

/-- Modelled from the spec: the primitive of the scenario of §8: `start_angle = 0`,
`end_angle = 1.5708`, `turning_radius = 0.5`, `arc_length = 0.785`, `straight_length = 0`,
`trajectory_length = 0.785`, `left_turn = true`; two poses are filled in. -/
def scenario_primitive : MotionPrimitive :=
  MotionPrimitive.mk 0 0 1.5708 0.5 0.785 0.785 0 true [⟨0, 0, 0⟩, ⟨0.5, 0.5, 1.5708⟩]

/-- Modelled from the spec: the angular tolerance the scenario of §8 is loaded with,
`1e-3`. -/
def scenario_tolerance : LoadTolerance :=
  LoadTolerance.mk 0.001

/-- Modelled from the spec: the library that loading the scenario of §8 yields: the
primitive is in the bucket of heading index `0`. -/
def scenario_library : PrimitiveLibrary :=
  ⟨scenario_tolerance, scenario_metadata, [scenario_primitive], [[0], [], [], []]⟩

/-! ## Stores and parameters of the examples -/

/-- The store without any declared key. -/
def empty_store : ParameterStore :=
  fun _ => none

/-- Parameters as they may be before `get`: `holonomic_` is `false`, the other members hold
arbitrary content. -/
def fresh_params : SmootherParams :=
  SmootherParams.default_constructor ⟨0, 0, 0, 0, true, false⟩

/-- A store that declares `GridBased.smoother.max_iterations = 0`. -/
def store_zero_iterations : ParameterStore :=
  declare_parameter empty_store "GridBased.smoother.max_iterations" (.integer 0)

/-- A store that declares `GridBased.smoother.tolerance = 0.001` and
`GridBased.smoother.max_iterations = 50`. -/
def store_positive : ParameterStore :=
  declare_parameter
    (declare_parameter empty_store "GridBased.smoother.tolerance" (.double 0.001))
    "GridBased.smoother.max_iterations" (.integer 50)

/-- A store that declares `GridBased.smoother.w_data = 0.5` and
`GridBased.smoother.do_refinement = false`. -/
def store_w_data_refinement : ParameterStore :=
  declare_parameter
    (declare_parameter empty_store "GridBased.smoother.w_data" (.double 0.5))
    "GridBased.smoother.do_refinement" (.bool false)

/-- A store that declares `GridBased.smoother.tolerance` as the string `tight` and
`GridBased.smoother.max_iterations = 5`. -/
def store_string_tolerance : ParameterStore :=
  declare_parameter
    (declare_parameter empty_store "GridBased.smoother.tolerance" (.string "tight"))
    "GridBased.smoother.max_iterations" (.integer 5)

/-- A store that declares `GridBased.smoother.max_iterations = 5`. -/
def store_five_iterations : ParameterStore :=
  declare_parameter empty_store "GridBased.smoother.max_iterations" (.integer 5)

/-! ## Lemmas on the parameter store -/

/-- Two keys with the same prefix are equal exactly when their last parts are. -/
theorem key_eq_iff (local_name a b : String) : local_name ++ a = local_name ++ b ↔ a = b := by
  constructor
  · intro h
    have h2 := congrArg String.data h
    simp only [String.data_append, List.append_cancel_left_eq] at h2
    exact String.ext h2
  · rintro rfl; rfl

/-- Declaring a key that is declared already leaves the store as it is. -/
theorem declare_if_not_declared_of_isSome (node : ParameterStore) (k : String)
    (d : ParameterValue) (h : (node k).isSome = true) :
    declare_parameter_if_not_declared node k d = node := by
  simp [declare_parameter_if_not_declared, has_parameter, h]

/-- No path of `get` assigns `holonomic_`. -/
theorem get_keeps_holonomic (self : SmootherParams) (node : ParameterStore) (name : String) :
    (self.get node name).params.holonomic_ = self.holonomic_ := by
  unfold SmootherParams.get
  simp only []
  repeat' split
  all_goals rfl

/-- The store after `declare_parameter_if_not_declared`, key by key: the key declared holds its
former value, or the default when it had none; every other key is as before. -/
theorem declare_if_not_declared_apply (node : ParameterStore) (k : String)
    (d : ParameterValue) (key : String) :
    declare_parameter_if_not_declared node k d key
      = if key = k then some ((node k).getD d) else node key := by
  unfold declare_parameter_if_not_declared has_parameter declare_parameter
  by_cases hk : key = k
  · subst hk; cases h : node key <;> simp [h]
  · cases h : node k <;> simp [hk]

/-- A second call of `get` retraces the first one: each key that the first call has read is
declared by then, so the second call declares nothing and reads the same values, up to the
same exception if the first call ended by one. -/
theorem get_idempotent_aux (self : SmootherParams) (node : ParameterStore) (name : String) :
    SmootherParams.get (self.get node name).params (self.get node name).node name
      = self.get node name := by
  rcases h1 : ParameterValue.get_double
      ((node (name ++ ".smoother." ++ "tolerance")).getD (.double 1e-10)) with _ | v1
  · simp [SmootherParams.get, get_parameter, declare_if_not_declared_apply, key_eq_iff,
      declare_if_not_declared_of_isSome, h1]
  rcases h2 : ParameterValue.get_int
      ((node (name ++ ".smoother." ++ "max_iterations")).getD (.integer 1000)) with _ | v2
  · simp [SmootherParams.get, get_parameter, declare_if_not_declared_apply, key_eq_iff,
      declare_if_not_declared_of_isSome, h1, h2]
  rcases h3 : ParameterValue.get_double
      ((node (name ++ ".smoother." ++ "w_data")).getD (.double 0.2)) with _ | v3
  · simp [SmootherParams.get, get_parameter, declare_if_not_declared_apply, key_eq_iff,
      declare_if_not_declared_of_isSome, h1, h2, h3]
  rcases h4 : ParameterValue.get_double
      ((node (name ++ ".smoother." ++ "w_smooth")).getD (.double 0.3)) with _ | v4
  · simp [SmootherParams.get, get_parameter, declare_if_not_declared_apply, key_eq_iff,
      declare_if_not_declared_of_isSome, h1, h2, h3, h4]
  rcases h5 : ParameterValue.get_bool
      ((node (name ++ ".smoother." ++ "do_refinement")).getD (.bool true)) with _ | v5
  · simp [SmootherParams.get, get_parameter, declare_if_not_declared_apply, key_eq_iff,
      declare_if_not_declared_of_isSome, h1, h2, h3, h4, h5]
  · simp [SmootherParams.get, get_parameter, declare_if_not_declared_apply, key_eq_iff,
      declare_if_not_declared_of_isSome, h1, h2, h3, h4, h5]

/-- A readable key yields a value of the destination type, be it the declared one or a
default of that type. -/
theorem readable_getD {T : Type} (get_value : ParameterValue → Option T)
    (node : ParameterStore) (key : String) (d : ParameterValue)
    (hd : (get_value d).isSome = true) (h : readable get_value node key) :
    ∃ v, get_value ((node key).getD d) = some v := by
  cases hk : node key with
  | none => simpa [Option.isSome_iff_exists] using hd
  | some x => simpa [Option.isSome_iff_exists] using h x hk

/-- The conversion to `int` leaves a value of the `int` range as it is. -/
theorem static_cast_int_of_int (i : Int) (h1 : -2 ^ 31 ≤ i) (h2 : i < 2 ^ 31) :
    static_cast_int i = i := by
  unfold static_cast_int
  rw [Int.emod_eq_of_lt (by omega) (by omega)]
  omega

/-! ## The statements of `SmootherParams::get`, one by one

The value that the `j`-th `get_parameter` of `get` reads is the declared value of its key,
or the default that the preceding `declare_parameter_if_not_declared` has just declared:
`(node key).getD default` in the store `get` was called with.  The lemmas below follow `get`
up to its `j`-th statement. -/

/-- When the first read of `get` succeeds, `get` sets `tolerance_` to the value read and
the store holds that value under the key, whatever the later statements do. -/
theorem get_reaches_tolerance (self : SmootherParams) (node : ParameterStore)
    (name : String) (v1 : ℚ)
    (e1 : ParameterValue.get_double
      ((node (name ++ ".smoother." ++ "tolerance")).getD (.double 1e-10)) = some v1) :
    (self.get node name).params.tolerance_ = v1 ∧
    (self.get node name).node (name ++ ".smoother." ++ "tolerance")
      = some ((node (name ++ ".smoother." ++ "tolerance")).getD (.double 1e-10)) := by
  simp only [SmootherParams.get, get_parameter, declare_if_not_declared_apply, key_eq_iff,
    e1]
  repeat' split
  all_goals simp_all [declare_if_not_declared_apply, key_eq_iff]

/-- When the first two reads of `get` succeed, `get` sets `max_its_` to the value read and
the store holds that value under the key, whatever the later statements do. -/
theorem get_reaches_max_iterations (self : SmootherParams) (node : ParameterStore)
    (name : String) (v1 : ℚ) (v2 : Int)
    (e1 : ParameterValue.get_double
      ((node (name ++ ".smoother." ++ "tolerance")).getD (.double 1e-10)) = some v1)
    (e2 : ParameterValue.get_int
      ((node (name ++ ".smoother." ++ "max_iterations")).getD (.integer 1000)) = some v2) :
    (self.get node name).params.max_its_ = v2 ∧
    (self.get node name).node (name ++ ".smoother." ++ "max_iterations")
      = some ((node (name ++ ".smoother." ++ "max_iterations")).getD (.integer 1000)) := by
  simp only [SmootherParams.get, get_parameter, declare_if_not_declared_apply, key_eq_iff,
    e1, e2]
  repeat' split
  all_goals simp_all [declare_if_not_declared_apply, key_eq_iff]

/-- When the first three reads of `get` succeed, `get` sets `w_data_` to the value read and
the store holds that value under the key, whatever the later statements do. -/
theorem get_reaches_w_data (self : SmootherParams) (node : ParameterStore)
    (name : String) (v1 : ℚ) (v2 : Int) (v3 : ℚ)
    (e1 : ParameterValue.get_double
      ((node (name ++ ".smoother." ++ "tolerance")).getD (.double 1e-10)) = some v1)
    (e2 : ParameterValue.get_int
      ((node (name ++ ".smoother." ++ "max_iterations")).getD (.integer 1000)) = some v2)
    (e3 : ParameterValue.get_double
      ((node (name ++ ".smoother." ++ "w_data")).getD (.double 0.2)) = some v3) :
    (self.get node name).params.w_data_ = v3 ∧
    (self.get node name).node (name ++ ".smoother." ++ "w_data")
      = some ((node (name ++ ".smoother." ++ "w_data")).getD (.double 0.2)) := by
  simp only [SmootherParams.get, get_parameter, declare_if_not_declared_apply, key_eq_iff,
    e1, e2, e3]
  repeat' split
  all_goals simp_all [declare_if_not_declared_apply, key_eq_iff]

/-- When the first four reads of `get` succeed, `get` sets `w_smooth_` to the value read and
the store holds that value under the key, whatever the later statements do. -/
theorem get_reaches_w_smooth (self : SmootherParams) (node : ParameterStore)
    (name : String) (v1 : ℚ) (v2 : Int) (v3 : ℚ) (v4 : ℚ)
    (e1 : ParameterValue.get_double
      ((node (name ++ ".smoother." ++ "tolerance")).getD (.double 1e-10)) = some v1)
    (e2 : ParameterValue.get_int
      ((node (name ++ ".smoother." ++ "max_iterations")).getD (.integer 1000)) = some v2)
    (e3 : ParameterValue.get_double
      ((node (name ++ ".smoother." ++ "w_data")).getD (.double 0.2)) = some v3)
    (e4 : ParameterValue.get_double
      ((node (name ++ ".smoother." ++ "w_smooth")).getD (.double 0.3)) = some v4) :
    (self.get node name).params.w_smooth_ = v4 ∧
    (self.get node name).node (name ++ ".smoother." ++ "w_smooth")
      = some ((node (name ++ ".smoother." ++ "w_smooth")).getD (.double 0.3)) := by
  simp only [SmootherParams.get, get_parameter, declare_if_not_declared_apply, key_eq_iff,
    e1, e2, e3, e4]
  repeat' split
  all_goals simp_all [declare_if_not_declared_apply, key_eq_iff]

/-- When the first five reads of `get` succeed, `get` sets `do_refinement_` to the value read and
the store holds that value under the key, whatever the later statements do. -/
theorem get_reaches_do_refinement (self : SmootherParams) (node : ParameterStore)
    (name : String) (v1 : ℚ) (v2 : Int) (v3 : ℚ) (v4 : ℚ) (v5 : Bool)
    (e1 : ParameterValue.get_double
      ((node (name ++ ".smoother." ++ "tolerance")).getD (.double 1e-10)) = some v1)
    (e2 : ParameterValue.get_int
      ((node (name ++ ".smoother." ++ "max_iterations")).getD (.integer 1000)) = some v2)
    (e3 : ParameterValue.get_double
      ((node (name ++ ".smoother." ++ "w_data")).getD (.double 0.2)) = some v3)
    (e4 : ParameterValue.get_double
      ((node (name ++ ".smoother." ++ "w_smooth")).getD (.double 0.3)) = some v4)
    (e5 : ParameterValue.get_bool
      ((node (name ++ ".smoother." ++ "do_refinement")).getD (.bool true)) = some v5) :
    (self.get node name).params.do_refinement_ = v5 ∧
    (self.get node name).node (name ++ ".smoother." ++ "do_refinement")
      = some ((node (name ++ ".smoother." ++ "do_refinement")).getD (.bool true)) := by
  simp only [SmootherParams.get, get_parameter, declare_if_not_declared_apply, key_eq_iff,
    e1, e2, e3, e4, e5]
  repeat' split
  all_goals simp_all [declare_if_not_declared_apply, key_eq_iff]

/-- When the five reads of `get` succeed, `get` runs to its end. -/
theorem get_runs_to_end (self : SmootherParams) (node : ParameterStore) (name : String)
    (v1 : ℚ) (v2 : Int) (v3 : ℚ) (v4 : ℚ) (v5 : Bool)
    (e1 : ParameterValue.get_double
      ((node (name ++ ".smoother." ++ "tolerance")).getD (.double 1e-10)) = some v1)
    (e2 : ParameterValue.get_int
      ((node (name ++ ".smoother." ++ "max_iterations")).getD (.integer 1000)) = some v2)
    (e3 : ParameterValue.get_double
      ((node (name ++ ".smoother." ++ "w_data")).getD (.double 0.2)) = some v3)
    (e4 : ParameterValue.get_double
      ((node (name ++ ".smoother." ++ "w_smooth")).getD (.double 0.3)) = some v4)
    (e5 : ParameterValue.get_bool
      ((node (name ++ ".smoother." ++ "do_refinement")).getD (.bool true)) = some v5) :
    (self.get node name).thrown = none := by
  simp [SmootherParams.get, get_parameter, declare_if_not_declared_apply, key_eq_iff,
    e1, e2, e3, e4, e5]

/-- When `get` runs to its end, its first two reads have succeeded. -/
theorem get_end_reads (self : SmootherParams) (node : ParameterStore) (name : String)
    (h : (self.get node name).thrown = none) :
    (∃ v1, ParameterValue.get_double
      ((node (name ++ ".smoother." ++ "tolerance")).getD (.double 1e-10)) = some v1) ∧
    (∃ v2, ParameterValue.get_int
      ((node (name ++ ".smoother." ++ "max_iterations")).getD (.integer 1000)) = some v2) := by
  rcases h1 : ParameterValue.get_double
      ((node (name ++ ".smoother." ++ "tolerance")).getD (.double 1e-10)) with _ | v1
  · simp [SmootherParams.get, get_parameter, declare_if_not_declared_apply, key_eq_iff,
      h1] at h
  rcases h2 : ParameterValue.get_int
      ((node (name ++ ".smoother." ++ "max_iterations")).getD (.integer 1000)) with _ | v2
  · simp [SmootherParams.get, get_parameter, declare_if_not_declared_apply, key_eq_iff,
      h1, h2] at h
  exact ⟨⟨v1, rfl⟩, ⟨v2, rfl⟩⟩

/-! ## SmootherParams::get -/

/-- Claim C1: when none of the five keys `<name>.smoother.tolerance`, `.max_iterations`,
`.w_data`, `.w_smooth`, `.do_refinement` is declared, `get` runs to its end without an
exception and leaves `tolerance_ = 1e-10`, `max_its_ = 1000`, `w_data_ = 0.2`,
`w_smooth_ = 0.3` and `do_refinement_ = true`. -/
theorem get_applies_defaults (self : SmootherParams) (node : ParameterStore) (name : String)
    (h1 : node (name ++ ".smoother." ++ "tolerance") = none)
    (h2 : node (name ++ ".smoother." ++ "max_iterations") = none)
    (h3 : node (name ++ ".smoother." ++ "w_data") = none)
    (h4 : node (name ++ ".smoother." ++ "w_smooth") = none)
    (h5 : node (name ++ ".smoother." ++ "do_refinement") = none) :
    (self.get node name).thrown = none ∧
    (self.get node name).params.tolerance_ = 1e-10 ∧
    (self.get node name).params.max_its_ = 1000 ∧
    (self.get node name).params.w_data_ = 0.2 ∧
    (self.get node name).params.w_smooth_ = 0.3 ∧
    (self.get node name).params.do_refinement_ = true := by
  simp [SmootherParams.get, get_parameter, declare_if_not_declared_apply, key_eq_iff,
    h1, h2, h3, h4, h5, ParameterValue.get_double, ParameterValue.get_int,
    ParameterValue.get_bool, static_cast_int]

/-- Witness of C1: the empty store and the plugin name `GridBased`. -/
theorem get_applies_defaults_witness :
    (fresh_params.get empty_store "GridBased").thrown = none ∧
    (fresh_params.get empty_store "GridBased").params.tolerance_ = 1e-10 ∧
    (fresh_params.get empty_store "GridBased").params.max_its_ = 1000 ∧
    (fresh_params.get empty_store "GridBased").params.w_data_ = 0.2 ∧
    (fresh_params.get empty_store "GridBased").params.w_smooth_ = 0.3 ∧
    (fresh_params.get empty_store "GridBased").params.do_refinement_ = true :=
  get_applies_defaults fresh_params empty_store "GridBased" rfl rfl rfl rfl rfl

/-- Claim C9: `get` never touches `holonomic_`: its value after `get` is its value before,
whatever the store holds and whether or not `get` ends by an exception; hence after the
default constructor and `get` it is `false`, also for a store that declares
`<name>.smoother.holonomic` as `true`. -/
theorem get_never_touches_holonomic (self : SmootherParams) (node : ParameterStore)
    (name : String) :
    (self.get node name).params.holonomic_ = self.holonomic_ ∧
    ((SmootherParams.default_constructor self).get node name).params.holonomic_ = false ∧
    ((SmootherParams.default_constructor self).get
      (declare_parameter node (name ++ ".smoother." ++ "holonomic") (.bool true))
      name).params.holonomic_ = false :=
  ⟨get_keeps_holonomic self node name, get_keeps_holonomic _ node name,
    get_keeps_holonomic _ _ name⟩

/-- The store after `get`, key by key: a key is as before, or it was undeclared and is one of
the five keys of `get`. -/
theorem get_node_frame (self : SmootherParams) (node : ParameterStore) (name : String)
    (key : String) :
    (self.get node name).node key = node key ∨
    (node key = none ∧ key ∈ [name ++ ".smoother." ++ "tolerance",
      name ++ ".smoother." ++ "max_iterations", name ++ ".smoother." ++ "w_data",
      name ++ ".smoother." ++ "w_smooth", name ++ ".smoother." ++ "do_refinement"]) := by
  have step : ∀ (n : ParameterStore) (k : String) (d : ParameterValue),
      declare_parameter_if_not_declared n k d key = n key ∨ (n key = none ∧ key = k) := by
    intro n k d
    rw [declare_if_not_declared_apply]
    by_cases hk : key = k
    · subst hk
      cases h : n key <;> simp
    · simp [hk]
  unfold SmootherParams.get
  simp only []
  have s1 := step node (name ++ ".smoother." ++ "tolerance") (.double 1e-10)
  generalize declare_parameter_if_not_declared node (name ++ ".smoother." ++ "tolerance")
    (.double 1e-10) = n1 at s1 ⊢
  have s2 := step n1 (name ++ ".smoother." ++ "max_iterations") (.integer 1000)
  generalize declare_parameter_if_not_declared n1 (name ++ ".smoother." ++ "max_iterations")
    (.integer 1000) = n2 at s2 ⊢
  have s3 := step n2 (name ++ ".smoother." ++ "w_data") (.double 0.2)
  generalize declare_parameter_if_not_declared n2 (name ++ ".smoother." ++ "w_data")
    (.double 0.2) = n3 at s3 ⊢
  have s4 := step n3 (name ++ ".smoother." ++ "w_smooth") (.double 0.3)
  generalize declare_parameter_if_not_declared n3 (name ++ ".smoother." ++ "w_smooth")
    (.double 0.3) = n4 at s4 ⊢
  have s5 := step n4 (name ++ ".smoother." ++ "do_refinement") (.bool true)
  generalize declare_parameter_if_not_declared n4 (name ++ ".smoother." ++ "do_refinement")
    (.bool true) = n5 at s5 ⊢
  have c1 : n1 key = node key ∨ (node key = none ∧ key ∈ [name ++ ".smoother." ++ "tolerance",
      name ++ ".smoother." ++ "max_iterations", name ++ ".smoother." ++ "w_data",
      name ++ ".smoother." ++ "w_smooth", name ++ ".smoother." ++ "do_refinement"]) := by
    rcases s1 with a | ⟨a, b⟩
    · exact Or.inl a
    · exact Or.inr ⟨a, by simp [b]⟩
  have next : ∀ (n m : ParameterStore) (k : String),
      k ∈ [name ++ ".smoother." ++ "tolerance",
        name ++ ".smoother." ++ "max_iterations", name ++ ".smoother." ++ "w_data",
        name ++ ".smoother." ++ "w_smooth", name ++ ".smoother." ++ "do_refinement"] →
      (m key = n key ∨ (n key = none ∧ key = k)) →
      (n key = node key ∨ (node key = none ∧ key ∈ [name ++ ".smoother." ++ "tolerance",
        name ++ ".smoother." ++ "max_iterations", name ++ ".smoother." ++ "w_data",
        name ++ ".smoother." ++ "w_smooth", name ++ ".smoother." ++ "do_refinement"])) →
      (m key = node key ∨ (node key = none ∧ key ∈ [name ++ ".smoother." ++ "tolerance",
        name ++ ".smoother." ++ "max_iterations", name ++ ".smoother." ++ "w_data",
        name ++ ".smoother." ++ "w_smooth", name ++ ".smoother." ++ "do_refinement"])) := by
    intro n m k hk hm hn
    rcases hm with a | ⟨a, b⟩
    · rcases hn with c | c
      · exact Or.inl (a.trans c)
      · exact Or.inr c
    · rcases hn with c | c
      · exact Or.inr ⟨c ▸ a, b ▸ hk⟩
      · exact Or.inr c
  have c2 := next n1 n2 _ (by simp) s2 c1
  have c3 := next n2 n3 _ (by simp) s3 c2
  have c4 := next n3 n4 _ (by simp) s4 c3
  have c5 := next n4 n5 _ (by simp) s5 c4
  repeat' split
  all_goals assumption

/-- Claim C10: `get` is idempotent on the pair (parameters, store): a second call with the
same name leaves the parameters, the store and the exception, if any, exactly as the first
call left them; and the first call changes the store at most by declaring keys among the
five keys `<name>.smoother.*`, every other key being as before. -/
theorem get_twice_is_get_once (self : SmootherParams) (node : ParameterStore)
    (name : String) :
    SmootherParams.get (self.get node name).params (self.get node name).node name
      = self.get node name ∧
    ∀ key : String, (self.get node name).node key = node key ∨
      (node key = none ∧ key ∈ [name ++ ".smoother." ++ "tolerance",
        name ++ ".smoother." ++ "max_iterations", name ++ ".smoother." ++ "w_data",
        name ++ ".smoother." ++ "w_smooth", name ++ ".smoother." ++ "do_refinement"]) :=
  ⟨get_idempotent_aux self node name, get_node_frame self node name⟩

/-- Counterexample to C3: a store that supplies `GridBased.smoother.max_iterations = 0` is
accepted: `get` runs to its end without an exception and yields `max_its_ = 0`, which is
not positive. -/
theorem get_accepts_zero_max_iterations :
    store_zero_iterations "GridBased.smoother.max_iterations" = some (.integer 0) ∧
    (fresh_params.get store_zero_iterations "GridBased").thrown = none ∧
    (fresh_params.get store_zero_iterations "GridBased").params.max_its_ = 0 ∧
    ¬ 0 < (fresh_params.get store_zero_iterations "GridBased").params.max_its_ := by
  simp [SmootherParams.get, get_parameter, declare_if_not_declared_apply, declare_parameter,
    ParameterValue.get_double, ParameterValue.get_int, ParameterValue.get_bool,
    static_cast_int, store_zero_iterations, empty_store, fresh_params]

/-- Claim C3, amended: `get` checks no range.  The parameters that a call of `get` which
ran to its end yields have `max_its_ > 0` and `tolerance_ > 0` provided that the values the
store declares for `<name>.smoother.max_iterations` (an `int`) and
`<name>.smoother.tolerance`, if any, are positive; the defaults are. -/
theorem get_yields_positive_from_positive_store (self : SmootherParams)
    (node : ParameterStore) (name : String)
    (htol : ∀ d : ℚ, node (name ++ ".smoother." ++ "tolerance") = some (.double d) → 0 < d)
    (hits : ∀ i : Int, node (name ++ ".smoother." ++ "max_iterations") = some (.integer i) →
      0 < i ∧ i < 2 ^ 31)
    (hend : (self.get node name).thrown = none) :
    0 < (self.get node name).params.max_its_ ∧ 0 < (self.get node name).params.tolerance_ := by
  obtain ⟨⟨v1, e1⟩, ⟨v2, e2⟩⟩ := get_end_reads self node name hend
  rw [(get_reaches_tolerance self node name v1 e1).1,
    (get_reaches_max_iterations self node name v1 v2 e1 e2).1]
  constructor
  · cases hk : node (name ++ ".smoother." ++ "max_iterations") with
    | none =>
      simp [hk, ParameterValue.get_int, static_cast_int] at e2
      omega
    | some x =>
      cases x <;> simp [hk, ParameterValue.get_int] at e2
      rename_i i
      obtain ⟨p1, p2⟩ := hits i hk
      rw [static_cast_int_of_int i (by omega) p2] at e2
      omega
  · cases hk : node (name ++ ".smoother." ++ "tolerance") with
    | none =>
      simp [hk, ParameterValue.get_double] at e1
      rw [← e1]; norm_num
    | some x =>
      cases x <;> simp [hk, ParameterValue.get_double] at e1
      rename_i d
      exact e1 ▸ htol d hk

/-- Witness of C3, amended: a store that declares `tolerance = 0.001` and
`max_iterations = 50` for the plugin `GridBased`. -/
theorem get_yields_positive_from_positive_store_witness :
    0 < (fresh_params.get store_positive "GridBased").params.max_its_ ∧
    0 < (fresh_params.get store_positive "GridBased").params.tolerance_ :=
  get_yields_positive_from_positive_store fresh_params store_positive "GridBased"
    (by intro d h; simp [store_positive, declare_parameter] at h; rw [← h]; norm_num)
    (by intro i h; simp [store_positive, declare_parameter] at h; omega)
    (by simp [SmootherParams.get, get_parameter, declare_if_not_declared_apply,
      declare_parameter, ParameterValue.get_double, ParameterValue.get_int,
      ParameterValue.get_bool, store_positive, empty_store])

/-- Counterexample to C4: no key of the store loads `holonomic_`: whatever the key, a store
that declares it as `true` leaves `holonomic_ = false` after `get`. -/
theorem holonomic_is_not_read_from_the_store :
    ¬ ∃ key : String, ∀ (self : SmootherParams) (node : ParameterStore) (b : Bool),
      node key = some (.bool b) → (self.get node "GridBased").params.holonomic_ = b := by
  rintro ⟨key, h⟩
  have h2 := h fresh_params (declare_parameter empty_store key (.bool true)) true
    (by simp [declare_parameter])
  rw [get_keeps_holonomic] at h2
  exact Bool.noConfusion h2

/-- Claim C4, amended: the store is queried for five of the six fields, under the keys
`<name>.smoother.` + `tolerance`, `max_iterations`, `w_data`, `w_smooth`, `do_refinement`;
`holonomic_` is not queried and keeps its value.  For every store in which each of the five
keys is undeclared or declared with a value of its field's type, `get` runs to its end and
each field whose key the store declares with a value `v` (for `max_its_`, a 32-bit `int`)
equals `v` after `get`. -/
theorem get_reads_the_five_loaded_fields (self : SmootherParams) (node : ParameterStore)
    (name : String)
    (r1 : readable ParameterValue.get_double node (name ++ ".smoother." ++ "tolerance"))
    (r2 : readable ParameterValue.get_int node (name ++ ".smoother." ++ "max_iterations"))
    (r3 : readable ParameterValue.get_double node (name ++ ".smoother." ++ "w_data"))
    (r4 : readable ParameterValue.get_double node (name ++ ".smoother." ++ "w_smooth"))
    (r5 : readable ParameterValue.get_bool node (name ++ ".smoother." ++ "do_refinement")) :
    (self.get node name).thrown = none ∧
    (∀ v : ℚ, node (name ++ ".smoother." ++ "tolerance") = some (.double v) →
      (self.get node name).params.tolerance_ = v) ∧
    (∀ v : Int, node (name ++ ".smoother." ++ "max_iterations") = some (.integer v) →
      -2 ^ 31 ≤ v → v < 2 ^ 31 → (self.get node name).params.max_its_ = v) ∧
    (∀ v : ℚ, node (name ++ ".smoother." ++ "w_data") = some (.double v) →
      (self.get node name).params.w_data_ = v) ∧
    (∀ v : ℚ, node (name ++ ".smoother." ++ "w_smooth") = some (.double v) →
      (self.get node name).params.w_smooth_ = v) ∧
    (∀ v : Bool, node (name ++ ".smoother." ++ "do_refinement") = some (.bool v) →
      (self.get node name).params.do_refinement_ = v) ∧
    (self.get node name).params.holonomic_ = self.holonomic_ := by
  obtain ⟨v1, e1⟩ := readable_getD ParameterValue.get_double _ _ (.double 1e-10) rfl r1
  obtain ⟨v2, e2⟩ := readable_getD ParameterValue.get_int _ _ (.integer 1000) rfl r2
  obtain ⟨v3, e3⟩ := readable_getD ParameterValue.get_double _ _ (.double 0.2) rfl r3
  obtain ⟨v4, e4⟩ := readable_getD ParameterValue.get_double _ _ (.double 0.3) rfl r4
  obtain ⟨v5, e5⟩ := readable_getD ParameterValue.get_bool _ _ (.bool true) rfl r5
  refine ⟨get_runs_to_end self node name v1 v2 v3 v4 v5 e1 e2 e3 e4 e5, ?_, ?_, ?_, ?_, ?_,
    get_keeps_holonomic self node name⟩
  · intro v hv
    rw [(get_reaches_tolerance self node name v1 e1).1]
    simpa [hv, ParameterValue.get_double] using e1.symm
  · intro v hv hlo hhi
    rw [(get_reaches_max_iterations self node name v1 v2 e1 e2).1]
    simpa [hv, ParameterValue.get_int, static_cast_int_of_int v hlo hhi] using e2.symm
  · intro v hv
    rw [(get_reaches_w_data self node name v1 v2 v3 e1 e2 e3).1]
    simpa [hv, ParameterValue.get_double] using e3.symm
  · intro v hv
    rw [(get_reaches_w_smooth self node name v1 v2 v3 v4 e1 e2 e3 e4).1]
    simpa [hv, ParameterValue.get_double] using e4.symm
  · intro v hv
    rw [(get_reaches_do_refinement self node name v1 v2 v3 v4 v5 e1 e2 e3 e4 e5).1]
    simpa [hv, ParameterValue.get_bool] using e5.symm

/-- Witness of C4, amended: a store that declares `w_data = 0.5` and
`do_refinement = false` for the plugin `GridBased`. -/
theorem get_reads_the_five_loaded_fields_witness :
    (fresh_params.get store_w_data_refinement "GridBased").thrown = none ∧
    (fresh_params.get store_w_data_refinement "GridBased").params.w_data_ = 0.5 ∧
    (fresh_params.get store_w_data_refinement "GridBased").params.do_refinement_ = false := by
  have h := get_reads_the_five_loaded_fields fresh_params store_w_data_refinement "GridBased"
    (by intro x hx; simp [store_w_data_refinement, empty_store, declare_parameter] at hx)
    (by intro x hx; simp [store_w_data_refinement, empty_store, declare_parameter] at hx)
    (by intro x hx; simp [store_w_data_refinement, declare_parameter] at hx; subst hx; rfl)
    (by intro x hx; simp [store_w_data_refinement, empty_store, declare_parameter] at hx)
    (by intro x hx; simp [store_w_data_refinement, declare_parameter] at hx; subst hx; rfl)
  exact ⟨h.1, h.2.2.2.1 0.5 (by simp [store_w_data_refinement, declare_parameter]),
    h.2.2.2.2.2.1 false (by simp [store_w_data_refinement, declare_parameter])⟩

/-- Counterexample to C8: the store declares `GridBased.smoother.max_iterations = 5`, an
`int`, and `GridBased.smoother.tolerance` as a string.  `get` ends with the type exception
of its first `get_parameter` and never sets `max_its_`, which keeps the value it had, `0`. -/
theorem declared_value_not_reached_after_exception :
    store_string_tolerance "GridBased.smoother.max_iterations" = some (.integer 5) ∧
    fresh_params.max_its_ = 0 ∧
    (fresh_params.get store_string_tolerance "GridBased").thrown
      = some (.InvalidParameterType "GridBased.smoother.tolerance") ∧
    (fresh_params.get store_string_tolerance "GridBased").params.max_its_ = 0 ∧
    (fresh_params.get store_string_tolerance "GridBased").params.max_its_ ≠ 5 := by
  simp [SmootherParams.get, get_parameter, declare_if_not_declared_apply, declare_parameter,
    ParameterValue.get_double, ParameterValue.get_int, ParameterValue.get_bool,
    store_string_tolerance, empty_store, fresh_params, SmootherParams.default_constructor]

/-- Claim C8, amended: a declared value wins over the default.  For each of the five keys
`<name>.smoother.` + `tolerance`, `max_iterations`, `w_data`, `w_smooth`, `do_refinement`:
when the store declares it with a value `v` of its field's type, and each key that `get`
reads before it is undeclared or declared with a value of its own field's type, `get` sets
the field to `v` and leaves the store's value for the key equal to `v` (also when a later
statement of `get` throws).  On every path `get` leaves the value of every declared key as
it is. -/
theorem get_prefers_declared_value (self : SmootherParams) (node : ParameterStore)
    (name : String) :
    (∀ v : ℚ, node (name ++ ".smoother." ++ "tolerance") = some (.double v) →
      (self.get node name).params.tolerance_ = v ∧
      (self.get node name).node (name ++ ".smoother." ++ "tolerance") = some (.double v)) ∧
    (readable ParameterValue.get_double node (name ++ ".smoother." ++ "tolerance") →
      ∀ v : Int, node (name ++ ".smoother." ++ "max_iterations") = some (.integer v) →
      -2 ^ 31 ≤ v → v < 2 ^ 31 →
      (self.get node name).params.max_its_ = v ∧
      (self.get node name).node (name ++ ".smoother." ++ "max_iterations") = some (.integer v)) ∧
    (readable ParameterValue.get_double node (name ++ ".smoother." ++ "tolerance") →
      readable ParameterValue.get_int node (name ++ ".smoother." ++ "max_iterations") →
      ∀ v : ℚ, node (name ++ ".smoother." ++ "w_data") = some (.double v) →
      (self.get node name).params.w_data_ = v ∧
      (self.get node name).node (name ++ ".smoother." ++ "w_data") = some (.double v)) ∧
    (readable ParameterValue.get_double node (name ++ ".smoother." ++ "tolerance") →
      readable ParameterValue.get_int node (name ++ ".smoother." ++ "max_iterations") →
      readable ParameterValue.get_double node (name ++ ".smoother." ++ "w_data") →
      ∀ v : ℚ, node (name ++ ".smoother." ++ "w_smooth") = some (.double v) →
      (self.get node name).params.w_smooth_ = v ∧
      (self.get node name).node (name ++ ".smoother." ++ "w_smooth") = some (.double v)) ∧
    (readable ParameterValue.get_double node (name ++ ".smoother." ++ "tolerance") →
      readable ParameterValue.get_int node (name ++ ".smoother." ++ "max_iterations") →
      readable ParameterValue.get_double node (name ++ ".smoother." ++ "w_data") →
      readable ParameterValue.get_double node (name ++ ".smoother." ++ "w_smooth") →
      ∀ v : Bool, node (name ++ ".smoother." ++ "do_refinement") = some (.bool v) →
      (self.get node name).params.do_refinement_ = v ∧
      (self.get node name).node (name ++ ".smoother." ++ "do_refinement") = some (.bool v)) ∧
    (∀ (key : String) (v : ParameterValue), node key = some v →
      (self.get node name).node key = some v) := by
  refine ⟨?_, ?_, ?_, ?_, ?_, ?_⟩
  rotate_left 5
  · intro key v hv
    rcases get_node_frame self node name key with h | ⟨h, _⟩
    · rw [h, hv]
    · rw [hv] at h
      exact Option.noConfusion h
  · intro v hv
    simpa [hv] using get_reaches_tolerance self node name v
      (by simp [hv, ParameterValue.get_double])
  · intro r1 v hv hlo hhi
    obtain ⟨v1, e1⟩ := readable_getD ParameterValue.get_double _ _ (.double 1e-10) rfl r1
    simpa [hv] using get_reaches_max_iterations self node name v1 v e1
      (by simp [hv, ParameterValue.get_int, static_cast_int_of_int v hlo hhi])
  · intro r1 r2 v hv
    obtain ⟨v1, e1⟩ := readable_getD ParameterValue.get_double _ _ (.double 1e-10) rfl r1
    obtain ⟨v2, e2⟩ := readable_getD ParameterValue.get_int _ _ (.integer 1000) rfl r2
    simpa [hv] using get_reaches_w_data self node name v1 v2 v e1 e2
      (by simp [hv, ParameterValue.get_double])
  · intro r1 r2 r3 v hv
    obtain ⟨v1, e1⟩ := readable_getD ParameterValue.get_double _ _ (.double 1e-10) rfl r1
    obtain ⟨v2, e2⟩ := readable_getD ParameterValue.get_int _ _ (.integer 1000) rfl r2
    obtain ⟨v3, e3⟩ := readable_getD ParameterValue.get_double _ _ (.double 0.2) rfl r3
    simpa [hv] using get_reaches_w_smooth self node name v1 v2 v3 v e1 e2 e3
      (by simp [hv, ParameterValue.get_double])
  · intro r1 r2 r3 r4 v hv
    obtain ⟨v1, e1⟩ := readable_getD ParameterValue.get_double _ _ (.double 1e-10) rfl r1
    obtain ⟨v2, e2⟩ := readable_getD ParameterValue.get_int _ _ (.integer 1000) rfl r2
    obtain ⟨v3, e3⟩ := readable_getD ParameterValue.get_double _ _ (.double 0.2) rfl r3
    obtain ⟨v4, e4⟩ := readable_getD ParameterValue.get_double _ _ (.double 0.3) rfl r4
    simpa [hv] using get_reaches_do_refinement self node name v1 v2 v3 v4 v e1 e2 e3 e4
      (by simp [hv, ParameterValue.get_bool])

/-- Witness of C8, amended: a store that declares `max_iterations = 5` for the plugin
`GridBased`, read into `max_its_` in place of the default `1000`. -/
theorem get_prefers_declared_value_witness :
    (fresh_params.get store_five_iterations "GridBased").params.max_its_ = 5 ∧
    (fresh_params.get store_five_iterations "GridBased").node
      "GridBased.smoother.max_iterations" = some (.integer 5) := by
  have h := (get_prefers_declared_value fresh_params store_five_iterations "GridBased").2.1
    (by intro x hx; simp [store_five_iterations, empty_store, declare_parameter] at hx)
    5 (by simp [store_five_iterations, declare_parameter]) (by decide) (by decide)
  simpa using h

/-! ## The primitive library -/

/-- A resolved heading index is the index of a heading angle. -/
theorem resolve_heading_lt (angular_tolerance : ℚ) (heading_angles : List ℚ) (angle : ℚ)
    (index : Nat) (h : resolve_heading angular_tolerance heading_angles angle = some index) :
    index < heading_angles.length := by
  unfold resolve_heading at h
  split at h
  · exact Option.noConfusion h
  · rename_i i _
    split at h
    · exact Option.noConfusion h
    · rename_i a ha
      split at h
      · cases h
        exact (List.getElem?_eq_some.mp ha).1
      · exact Option.noConfusion h

/-- The buckets after `insert_handle`: the handle is appended to the bucket of its heading
index, the other buckets are as before. -/
theorem getD_insert_handle (buckets : List MotionPrimitivePtrs) (heading_index handle : Nat)
    (h : Nat) (hlt : h < buckets.length) :
    (insert_handle buckets heading_index handle).getD h []
      = if heading_index = h then buckets.getD h [] ++ [handle] else buckets.getD h [] := by
  unfold insert_handle
  rw [List.getD_eq_getElem?_getD, List.getD_eq_getElem?_getD, List.getElem?_modify,
    List.getElem?_eq_getElem hlt]
  by_cases hh : heading_index = h <;> simp [hh]

/-- The buckets that `group_by_start_angle` yields: as many as before; every primitive has
resolved; and bucket `h`, read through the arena, is what it was followed by the primitives
that resolve to `h`, in their order. -/
theorem group_by_start_angle_ok (angular_tolerance : ℚ) (heading_angles : List ℚ) :
    ∀ (primitives arena_before : MotionPrimitives) (buckets result : List MotionPrimitivePtrs),
      group_by_start_angle angular_tolerance heading_angles primitives arena_before.length
        buckets = .ok result →
      result.length = buckets.length ∧
      (∀ primitive ∈ primitives, ∃ h,
        resolve_heading angular_tolerance heading_angles primitive.start_angle = some h) ∧
      ∀ h, h < buckets.length →
        (result.getD h []).filterMap (fun handle => (arena_before ++ primitives)[handle]?)
          = (buckets.getD h []).filterMap
              (fun handle => (arena_before ++ primitives)[handle]?)
            ++ primitives.filter (fun primitive =>
              resolve_heading angular_tolerance heading_angles primitive.start_angle
                = some h) := by
  intro primitives
  induction primitives with
  | nil =>
    intro arena_before buckets result h
    simp only [group_by_start_angle, Except.ok.injEq] at h
    subst h
    simp
  | cons primitive rest ih =>
    intro arena_before buckets result h
    simp only [group_by_start_angle] at h
    split at h
    · exact Except.noConfusion h
    · rename_i heading_index hres
      have hlen : (arena_before ++ [primitive]).length = arena_before.length + 1 := by simp
      rw [← hlen] at h
      obtain ⟨l1, l2, l3⟩ := ih (arena_before ++ [primitive]) _ result h
      have harena : arena_before ++ [primitive] ++ rest = arena_before ++ primitive :: rest := by
        simp
      rw [harena] at l3
      refine ⟨?_, ?_, ?_⟩
      · rw [l1]; simp [insert_handle]
      · intro q hq
        rcases List.mem_cons.mp hq with rfl | hq
        · exact ⟨heading_index, hres⟩
        · exact l2 q hq
      · intro hd hlt
        have hlt2 : hd < (insert_handle buckets heading_index arena_before.length).length := by
          simpa [insert_handle] using hlt
        rw [l3 hd hlt2, getD_insert_handle _ _ _ _ hlt]
        by_cases hh : heading_index = hd
        · subst hh
          have hget : (arena_before ++ primitive :: rest)[arena_before.length]?
              = some primitive := by
            rw [List.getElem?_append_right (Nat.le_refl _)]
            simp
          simp [List.filterMap_append, hget, hres, List.filter_cons]
        · have hne : ¬ resolve_heading angular_tolerance heading_angles primitive.start_angle
              = some hd := by
            rw [hres]; simpa using hh
          simp [hh, hne, List.filter_cons]

/-- Adding `p` to the list of one index `h0` of a duplicate-free list of indices adds `p`
once to the concatenation. -/
theorem flatMap_insert_perm {α : Type} (p : α) (h0 : Nat) (f : Nat → List α) :
    ∀ l : List Nat, l.Nodup → h0 ∈ l →
      (l.flatMap (fun h => if h = h0 then p :: f h else f h)).Perm (p :: l.flatMap f) := by
  intro l
  induction l with
  | nil => intro _ hmem; simp at hmem
  | cons x xs ih =>
    intro hnd hmem
    rw [List.nodup_cons] at hnd
    simp only [List.flatMap_cons]
    by_cases hx : x = h0
    · subst hx
      have hcongr : xs.flatMap (fun h => if h = x then p :: f h else f h) = xs.flatMap f := by
        apply List.flatMap_congr
        intro h hh
        have : h ≠ x := fun e => hnd.1 (e ▸ hh)
        simp [this]
      simp [hcongr]
    · have hmem2 : h0 ∈ xs := by
        rcases List.mem_cons.mp hmem with e | e
        · exact absurd e.symm hx
        · exact e
      simp only [hx, if_false]
      exact (List.Perm.append_left (f x) (ih hnd.2 hmem2)).trans List.perm_middle

/-- Splitting a list by a key with values below `n` and concatenating the parts for
`0, ..., n - 1` permutes the list. -/
theorem flatMap_filter_perm {α : Type} (b : α → Option Nat) (n : Nat) :
    ∀ l : List α, (∀ a ∈ l, ∃ h, b a = some h ∧ h < n) →
      ((List.range n).flatMap (fun h => l.filter (fun a => b a = some h))).Perm l := by
  intro l
  induction l with
  | nil => intro _; simp
  | cons a rest ih =>
    intro hall
    obtain ⟨h0, hb, hlt⟩ := hall a (List.mem_cons_self a rest)
    have hfun : (fun h => (a :: rest).filter (fun x => b x = some h))
        = (fun h => if h = h0 then a :: rest.filter (fun x => decide (b x = some h))
            else rest.filter (fun x => decide (b x = some h))) := by
      funext h
      by_cases hh : h = h0
      · subst hh; simp [List.filter_cons, hb]
      · have : ¬ h0 = h := fun e => hh e.symm
        simp [List.filter_cons, hb, hh, this]
    rw [hfun]
    refine (flatMap_insert_perm a h0 _ (List.range n) (List.nodup_range n)
      (List.mem_range.mpr hlt)).trans ?_
    exact List.Perm.cons a (ih (fun x hx => hall x (List.mem_cons_of_mem a hx)))

/-- A successful `load` has passed the validations and returns the grouped primitives. -/
theorem load_ok (tolerance : LoadTolerance) (metadata : LatticeMetadata)
    (primitives : MotionPrimitives) (library : PrimitiveLibrary)
    (h : load tolerance metadata primitives = .ok library) :
    validate_metadata metadata primitives = .ok () ∧
    validate_primitives tolerance metadata primitives = .ok () ∧
    ∃ buckets, group_by_start_angle tolerance.angular metadata.heading_angles primitives
        ([] : MotionPrimitives).length (List.replicate metadata.number_of_headings [])
          = .ok buckets ∧
      library = ⟨tolerance, metadata, primitives, buckets⟩ := by
  unfold load at h
  split at h
  · exact Except.noConfusion h
  · rename_i hm
    split at h
    · exact Except.noConfusion h
    · rename_i hp
      split at h
      · exact Except.noConfusion h
      · split at h
        · exact Except.noConfusion h
        · rename_i buckets hg
          cases h
          exact ⟨hm, hp, buckets, hg, rfl⟩

/-- Validated metadata have as many heading angles as headings. -/
theorem validate_metadata_ok (metadata : LatticeMetadata) (primitives : MotionPrimitives)
    (h : validate_metadata metadata primitives = .ok ()) :
    metadata.heading_angles.length = metadata.number_of_headings := by
  unfold validate_metadata at h
  split at h
  · exact Except.noConfusion h
  · rename_i hc
    exact not_not.mp hc

/-- Every primitive of a validated collection is valid. -/
theorem validate_primitives_ok (tolerance : LoadTolerance) (metadata : LatticeMetadata) :
    ∀ primitives : MotionPrimitives,
      validate_primitives tolerance metadata primitives = .ok () →
      ∀ primitive ∈ primitives, validate_primitive tolerance metadata primitive = .ok () := by
  intro primitives
  induction primitives with
  | nil => intro _ q hq; simp at hq
  | cons p rest ih =>
    intro h q hq
    simp only [validate_primitives] at h
    split at h
    · exact Except.noConfusion h
    · rename_i hp
      rcases List.mem_cons.mp hq with rfl | hq
      · exact hp
      · exact ih h q hq

/-- A valid primitive has consistent lengths. -/
theorem validate_primitive_ok (tolerance : LoadTolerance) (metadata : LatticeMetadata)
    (primitive : MotionPrimitive)
    (h : validate_primitive tolerance metadata primitive = .ok ()) :
    |primitive.trajectory_length - (primitive.arc_length + primitive.straight_length)|
      < length_tolerance primitive := by
  unfold validate_primitive at h
  split at h
  · exact Except.noConfusion h
  · split at h
    · exact Except.noConfusion h
    · split at h
      · exact Except.noConfusion h
      · rename_i hc
        exact not_not.mp hc

/-- In a loaded library `primitives_from(h)` is the sequence of the loaded primitives whose
start angle resolves to `h`, in their order; it is empty for `h` beyond the headings. -/
theorem primitives_from_eq_filter (tolerance : LoadTolerance) (metadata : LatticeMetadata)
    (primitives : MotionPrimitives) (library : PrimitiveLibrary)
    (h : load tolerance metadata primitives = .ok library) (heading_index : Nat) :
    primitives_from library heading_index
      = if heading_index < metadata.number_of_headings then
          primitives.filter (fun primitive =>
            resolve_heading tolerance.angular metadata.heading_angles primitive.start_angle
              = some heading_index)
        else [] := by
  obtain ⟨_, _, buckets, hg, rfl⟩ := load_ok tolerance metadata primitives library h
  obtain ⟨l1, _, l3⟩ := group_by_start_angle_ok _ _ primitives [] _ buckets hg
  simp only [List.length_replicate] at l1 l3
  unfold primitives_from
  by_cases hlt : heading_index < metadata.number_of_headings
  · have h3 := l3 heading_index hlt
    simp only [List.nil_append] at h3
    rw [if_pos hlt, h3]
    simp [List.getD_eq_getElem?_getD, List.getElem?_replicate, hlt]
  · rw [if_neg hlt]
    have : buckets.getD heading_index [] = [] := by
      rw [List.getD_eq_getElem?_getD, List.getElem?_eq_none (by omega)]
      rfl
    rw [this]
    rfl

/-- The scenario of spec §8 loads, and yields `scenario_library`. -/
theorem load_scenario :
    load scenario_tolerance scenario_metadata [scenario_primitive] = .ok scenario_library := by
  norm_num [load, validate_metadata, validate_primitives, validate_primitive, resolve_heading,
    nearest_heading, nearest_heading_from, group_by_start_angle, insert_handle,
    abs_of_nonneg, abs_of_neg, scenario_tolerance, scenario_metadata, scenario_primitive,
    length_tolerance,
    scenario_library]
  rfl

/-- Claim C7: for every library that `load` yields, `primitives_from(h)` returns only
primitives whose start angle resolves to the heading bucket `h`, and the sequences
`primitives_from(h)` for `h` in `[0, number_of_headings)`, put together, are a permutation
of the loaded collection: no primitive is lost and none is duplicated. -/
theorem primitives_from_partitions_by_start_heading (tolerance : LoadTolerance)
    (metadata : LatticeMetadata) (primitives : MotionPrimitives) (library : PrimitiveLibrary)
    (h : load tolerance metadata primitives = .ok library) :
    library.primitives = primitives ∧
    (∀ (heading_index : Nat) (primitive : MotionPrimitive),
      primitive ∈ primitives_from library heading_index →
      resolve_heading tolerance.angular metadata.heading_angles primitive.start_angle
        = some heading_index) ∧
    ((List.range metadata.number_of_headings).flatMap (primitives_from library)).Perm
      primitives := by
  obtain ⟨hm, _, buckets, hg, hlib⟩ := load_ok tolerance metadata primitives library h
  obtain ⟨_, hres, _⟩ := group_by_start_angle_ok _ _ primitives [] _ buckets hg
  have hcount := validate_metadata_ok metadata primitives hm
  refine ⟨by rw [hlib], ?_, ?_⟩
  · intro heading_index primitive hmem
    rw [primitives_from_eq_filter tolerance metadata primitives library h] at hmem
    split at hmem
    · simpa using (List.mem_filter.mp hmem).2
    · simp at hmem
  · have hcongr : (List.range metadata.number_of_headings).flatMap (primitives_from library)
        = (List.range metadata.number_of_headings).flatMap (fun heading_index =>
            primitives.filter (fun primitive =>
              resolve_heading tolerance.angular metadata.heading_angles primitive.start_angle
                = some heading_index)) := by
      apply List.flatMap_congr
      intro heading_index hmem
      rw [primitives_from_eq_filter tolerance metadata primitives library h,
        if_pos (List.mem_range.mp hmem)]
    rw [hcongr]
    apply flatMap_filter_perm
    intro primitive hmem
    obtain ⟨hd, hhd⟩ := hres primitive hmem
    exact ⟨hd, hhd, hcount ▸ resolve_heading_lt _ _ _ _ hhd⟩

/-- Witness of C7: the scenario of spec §8, whose library has the one primitive in the
bucket of heading index `0`. -/
theorem primitives_from_partitions_by_start_heading_witness :
    load scenario_tolerance scenario_metadata [scenario_primitive] = .ok scenario_library ∧
    scenario_library.primitives = [scenario_primitive] ∧
    (∀ (heading_index : Nat) (primitive : MotionPrimitive),
      primitive ∈ primitives_from scenario_library heading_index →
      resolve_heading scenario_tolerance.angular scenario_metadata.heading_angles
        primitive.start_angle = some heading_index) ∧
    ((List.range scenario_metadata.number_of_headings).flatMap
      (primitives_from scenario_library)).Perm [scenario_primitive] :=
  ⟨load_scenario, primitives_from_partitions_by_start_heading scenario_tolerance
    scenario_metadata [scenario_primitive] scenario_library load_scenario⟩

/-- Every primitive of a loaded collection has passed the check of its lengths. -/
theorem load_checks_lengths (tolerance : LoadTolerance) (metadata : LatticeMetadata)
    (primitives : MotionPrimitives) (library : PrimitiveLibrary)
    (h : load tolerance metadata primitives = .ok library)
    (primitive : MotionPrimitive) (hmem : primitive ∈ primitives) :
    |primitive.trajectory_length - (primitive.arc_length + primitive.straight_length)|
      < length_tolerance primitive := by
  obtain ⟨_, hp, _, _, _⟩ := load_ok tolerance metadata primitives library h
  exact validate_primitive_ok tolerance metadata primitive
    (validate_primitives_ok tolerance metadata primitives hp primitive hmem)

/-- No angular tolerance and no metadata make `load` accept a collection that holds a
primitive with `trajectory_length = 1` and `arc_length = straight_length = 0`, or one with
`trajectory_length = 0.0005` and `arc_length = straight_length = 0`. -/
theorem load_rejects_inconsistent_lengths (tolerance : LoadTolerance)
    (metadata : LatticeMetadata) (primitives : MotionPrimitives)
    (primitive : MotionPrimitive) (hmem : primitive ∈ primitives)
    (hzero : primitive.arc_length = 0 ∧ primitive.straight_length = 0)
    (hlen : primitive.trajectory_length = 1 ∨ primitive.trajectory_length = 0.0005) :
    ∀ library, load tolerance metadata primitives ≠ .ok library := by
  intro library h
  have hb := load_checks_lengths tolerance metadata primitives library h primitive hmem
  unfold length_tolerance at hb
  rw [hzero.1, hzero.2] at hb
  rcases hlen with e | e <;> rw [e] at hb <;> norm_num [abs_of_nonneg] at hb

/-- Claim C2: pose subtraction is componentwise: `a - b` has `_x = a._x - b._x`,
`_y = a._y - b._y` and `_theta = a._theta - b._theta`; with the arithmetic taken exactly,
`a - a` is the zero pose and `(a - b) - (c - b) = a - c`. -/
theorem pose_subtraction_is_componentwise (a b c : MotionPose) :
    (a - b)._x = a._x - b._x ∧
    (a - b)._y = a._y - b._y ∧
    (a - b)._theta = a._theta - b._theta ∧
    a - a = MotionPose.mk 0 0 0 ∧
    (a - b) - (c - b) = a - c := by
  refine ⟨rfl, rfl, rfl, ?_, ?_⟩
  · show MotionPose.mk (a._x - a._x) (a._y - a._y) (a._theta - a._theta) = MotionPose.mk 0 0 0
    simp
  · show MotionPose.mk ((a._x - b._x) - (c._x - b._x)) ((a._y - b._y) - (c._y - b._y))
        ((a._theta - b._theta) - (c._theta - b._theta))
      = MotionPose.mk (a._x - c._x) (a._y - c._y) (a._theta - c._theta)
    simp

/-- Counterexample to C5: the headings `0` and `1` lie in `[0, 2π)`; the heading of the
difference of the two poses is `-1`, outside `[0, 2π)`. -/
theorem heading_of_difference_leaves_range :
    (0 ≤ ((MotionPose.mk 0 0 0)._theta : ℝ) ∧
      ((MotionPose.mk 0 0 0)._theta : ℝ) < 2 * Real.pi) ∧
    (0 ≤ ((MotionPose.mk 0 0 1)._theta : ℝ) ∧
      ((MotionPose.mk 0 0 1)._theta : ℝ) < 2 * Real.pi) ∧
    (MotionPose.mk 0 0 0 - MotionPose.mk 0 0 1)._theta = -1 ∧
    ¬ (0 ≤ ((MotionPose.mk 0 0 0 - MotionPose.mk 0 0 1)._theta : ℝ) ∧
      ((MotionPose.mk 0 0 0 - MotionPose.mk 0 0 1)._theta : ℝ) < 2 * Real.pi) := by
  have hpi := Real.pi_gt_three
  have hd : (MotionPose.mk 0 0 0 - MotionPose.mk 0 0 1)._theta = -1 := by
    show (0 : ℚ) - 1 = -1
    norm_num
  refine ⟨⟨by norm_num, by norm_num; linarith⟩, ⟨by norm_num, by norm_num; linarith⟩,
    hd, ?_⟩
  rw [hd]
  norm_num

/-- Claim C5, amended: `operator-` does not wrap: for poses `a` and `b` whose headings lie
in `[0, 2π)`, the heading of `a - b` is the plain difference `a._theta - b._theta`; it lies
in the open interval `(-2π, 2π)`, and in `[0, 2π)` exactly when `b._theta ≤ a._theta`. -/
theorem heading_of_difference_is_not_wrapped (a b : MotionPose)
    (ha : 0 ≤ (a._theta : ℝ) ∧ (a._theta : ℝ) < 2 * Real.pi)
    (hb : 0 ≤ (b._theta : ℝ) ∧ (b._theta : ℝ) < 2 * Real.pi) :
    (a - b)._theta = a._theta - b._theta ∧
    -(2 * Real.pi) < ((a - b)._theta : ℝ) ∧ ((a - b)._theta : ℝ) < 2 * Real.pi ∧
    ((0 ≤ ((a - b)._theta : ℝ) ∧ ((a - b)._theta : ℝ) < 2 * Real.pi) ↔
      b._theta ≤ a._theta) := by
  have hd : (a - b)._theta = a._theta - b._theta := rfl
  have hc : ((a - b)._theta : ℝ) = (a._theta : ℝ) - (b._theta : ℝ) := by
    rw [hd]; push_cast; rfl
  rw [hc]
  refine ⟨hd, by linarith [ha.1, hb.2], by linarith [ha.2, hb.1], ?_⟩
  constructor
  · intro h
    have : (b._theta : ℝ) ≤ (a._theta : ℝ) := by linarith [h.1]
    exact_mod_cast this
  · intro h
    have : (b._theta : ℝ) ≤ (a._theta : ℝ) := by exact_mod_cast h
    exact ⟨by linarith, by linarith [ha.2, hb.1]⟩

/-- Witness of C5, amended: the headings `3` and `1`. -/
theorem heading_of_difference_is_not_wrapped_witness :
    (MotionPose.mk 1 2 3 - MotionPose.mk 0 0 1)._theta = 3 - 1 ∧
    -(2 * Real.pi) < ((MotionPose.mk 1 2 3 - MotionPose.mk 0 0 1)._theta : ℝ) ∧
    ((MotionPose.mk 1 2 3 - MotionPose.mk 0 0 1)._theta : ℝ) < 2 * Real.pi ∧
    ((0 ≤ ((MotionPose.mk 1 2 3 - MotionPose.mk 0 0 1)._theta : ℝ) ∧
      ((MotionPose.mk 1 2 3 - MotionPose.mk 0 0 1)._theta : ℝ) < 2 * Real.pi) ↔
      (1 : ℚ) ≤ 3) :=
  heading_of_difference_is_not_wrapped (MotionPose.mk 1 2 3) (MotionPose.mk 0 0 1)
    ⟨by norm_num, by have := Real.pi_gt_three; norm_num; linarith⟩
    ⟨by norm_num, by have := Real.pi_gt_three; norm_num; linarith⟩

end nav2_smac_planner


